import Mathlib

/-!
Verification of the linuxfd timerfd wrapper (src/source/timerfd_c.c).

The wrapper marshals five operations (timerfd_create, timerfd_settime,
timerfd_settime_ns, timerfd_gettime, timerfd_read) onto the corresponding
Linux system calls.  The embedding below models:

* C `double` values as exact rationals (ℚ); a C cast from `double` to an
  integer type (`(time_t)d`, `(int)d`, `(long int)d`) truncates toward zero,
  modelled by `ctrunc`;
* the kernel's `struct itimerspec` as a pair of `(tv_sec, tv_nsec)` integer
  pairs;
* a failing system call as `Except.error errno`, a successful one as
  `Except.ok value`; the wrapper raises a Python `OSError` carrying an errno
  (`PyError.osError`);
* the kernel timer behind the descriptor as a small state (`TimerState`),
  with `timerfd_settime`/`timerfd_gettime` kernel semantics taken from their
  documented contract (validation of the itimerspec, swap-and-report-old,
  read-only query).

Each wrapper function is embedded twice where useful: a `..._result`
function that maps the raw kernel-call outcome to the wrapper's returned
value (the code after the `Py_END_ALLOW_THREADS` line), and a full
state-passing operation composed with the kernel model.
-/

namespace Timerfd

/-- Mathematical truncation toward zero (floor for non-negative values,
ceiling for negative ones): the value a C cast from `double` to an integer
type delivers when it fits the target type.  Doubles are modelled as exact
rationals. -/
def ctrunc (q : ℚ) : ℤ := if 0 ≤ q then ⌊q⌋ else ⌈q⌉

/-- The C cast `(int)d` from `double` to the 32-bit `int`: truncation
toward zero while the truncated value fits in `[-2^31, 2^31 - 1]`.  For
values outside that range the conversion is undefined in C; it is modelled
as x86-64 `cvttsd2si` delivers it, the integer-indefinite value `-2^31`
(`INT_MIN`). -/
def cint (q : ℚ) : ℤ :=
  if ctrunc q < -(2 ^ 31) ∨ 2 ^ 31 - 1 < ctrunc q then -(2 ^ 31) else ctrunc q

/-- The C cast from `double` to the 64-bit `long int` / `time_t`:
truncation toward zero while the truncated value fits in
`[-2^63, 2^63 - 1]`, and the x86-64 integer-indefinite value `-2^63`
(`LONG_MIN`) outside that range. -/
def clong (q : ℚ) : ℤ :=
  if ctrunc q < -(2 ^ 63) ∨ 2 ^ 63 - 1 < ctrunc q then -(2 ^ 63) else ctrunc q

/-- The kernel's `struct timespec`: whole seconds and nanoseconds. -/
structure Timespec where
  tv_sec : ℤ
  tv_nsec : ℤ
deriving DecidableEq, Repr

/-- The kernel's `struct itimerspec`: initial expiration and interval. -/
structure Itimerspec where
  it_value : Timespec
  it_interval : Timespec
deriving DecidableEq, Repr

/-- Kernel validity of a timespec, as checked by `timerfd_settime`
(documented contract: `tv_nsec` must lie in `[0, 999999999]` and the
seconds field must be non-negative, otherwise the call fails with EINVAL). -/
def Timespec.valid (t : Timespec) : Prop :=
  0 ≤ t.tv_sec ∧ 0 ≤ t.tv_nsec ∧ t.tv_nsec < 1000000000

instance (t : Timespec) : Decidable t.valid :=
  inferInstanceAs (Decidable (0 ≤ t.tv_sec ∧ 0 ≤ t.tv_nsec ∧ t.tv_nsec < 1000000000))

/-- errno value EINVAL on Linux. -/
def einvalCode : ℤ := 22

/-- errno value EIO on Linux, set by the wrapper on a short read. -/
def eioCode : ℤ := 5

/-- A raised Python exception: the wrapper only ever raises `OSError`
via `PyErr_SetFromErrno(PyExc_OSError)`, carrying the current errno. -/
inductive PyError where
  | osError (errno : ℤ)
deriving DecidableEq, Repr

/-- Kernel-side state of one timer descriptor: the currently armed
specification and the accumulated expiration counter. -/
structure TimerState where
  spec : Itimerspec
  counter : ℕ
deriving DecidableEq, Repr

/-- Kernel semantics of `timerfd_settime` (documented contract, not
repository code): reject an improperly specified itimerspec with EINVAL,
otherwise install the new specification and report the previous one. -/
def kernelSettime (st : TimerState) (newSpec : Itimerspec) :
    Except ℤ (Itimerspec × TimerState) :=
  if newSpec.it_value.valid ∧ newSpec.it_interval.valid then
    Except.ok (st.spec, { st with spec := newSpec })
  else
    Except.error einvalCode

/-- Kernel semantics of `timerfd_gettime` (documented contract, not
repository code): a read-only query reporting the current specification;
the timer state is left unchanged. -/
def kernelGettime (st : TimerState) : Except ℤ (Itimerspec × TimerState) :=
  Except.ok (st.spec, st)

/-- Conversion of one double-precision duration to a timespec, as in
lines 108-112 of `_timerfd_settime`:
`tv_sec  = (time_t)d;`
`tv_nsec = (long int)(1e9 * (d - (int)d));`
The inner cast is the 32-bit `(int)d`, so for `d ≥ 2^31` the subtraction
uses the overflowed value `-2^31` and the nanosecond field is garbage. -/
def splitOf (d : ℚ) : Timespec :=
  { tv_sec := clong d
    tv_nsec := clong (1000000000 * (d - (cint d : ℚ))) }

/-- The `struct itimerspec new_value` built by `_timerfd_settime` from its
two double arguments. -/
def settimeSpecOf (value interval : ℚ) : Itimerspec :=
  { it_value := splitOf value
    it_interval := splitOf interval }

/-- The `struct itimerspec new_value` built by `_timerfd_settime_ns` from
its two integer arguments (lines 68-72): both seconds fields are set to
zero and the arguments land in the nanosecond fields unchanged. -/
def settimeNsSpecOf (value interval : ℤ) : Itimerspec :=
  { it_value := { tv_sec := 0, tv_nsec := value }
    it_interval := { tv_sec := 0, tv_nsec := interval } }

/-- Reconstruction of a double-precision duration from a timespec, as in
the returned-tuple conversion `(double)tv_sec + (double)tv_nsec / 1e9`. -/
def reconstruct (t : Timespec) : ℚ :=
  (t.tv_sec : ℚ) + (t.tv_nsec : ℚ) / 1000000000

/-- `_timerfd_create` after the syscall: `-1` raises `OSError` from errno,
otherwise the descriptor is returned. -/
def timerfd_create (k : Except ℤ ℤ) : Except PyError ℤ :=
  match k with
  | Except.error e => Except.error (PyError.osError e)
  | Except.ok fd => Except.ok fd

/-- `_timerfd_settime` after the syscall: `-1` raises `OSError` from errno,
otherwise the old itimerspec is converted to a tuple of doubles
(lines 121-122). -/
def timerfd_settime_result (k : Except ℤ Itimerspec) : Except PyError (ℚ × ℚ) :=
  match k with
  | Except.error e => Except.error (PyError.osError e)
  | Except.ok old => Except.ok (reconstruct old.it_value, reconstruct old.it_interval)

/-- `_timerfd_settime_ns` after the syscall: identical error handling and
old-value conversion to `_timerfd_settime`. -/
def timerfd_settime_ns_result (k : Except ℤ Itimerspec) : Except PyError (ℚ × ℚ) :=
  match k with
  | Except.error e => Except.error (PyError.osError e)
  | Except.ok old => Except.ok (reconstruct old.it_value, reconstruct old.it_interval)

/-- `_timerfd_gettime` after the syscall: `-1` raises `OSError` from errno,
otherwise the current itimerspec is converted to a tuple of doubles
(lines 151-153). -/
def timerfd_gettime_result (k : Except ℤ Itimerspec) : Except PyError (ℚ × ℚ) :=
  match k with
  | Except.error e => Except.error (PyError.osError e)
  | Except.ok curr => Except.ok (reconstruct curr.it_value, reconstruct curr.it_interval)

/-- The conversion performed by `PyLong_FromLong(buffer)` on the
`uint64_t buffer`: the unsigned 64-bit value is implicitly converted to a
signed `long` (two's-complement wraparound on Linux) before being handed
to Python. -/
def uint64ToLong (n : ℕ) : ℤ :=
  if n % 2 ^ 64 < 2 ^ 63 then ((n % 2 ^ 64 : ℕ) : ℤ)
  else ((n % 2 ^ 64 : ℕ) : ℤ) - 2 ^ 64

/-- `_timerfd_read` after the `read` call.  The kernel outcome is either an
errno or a pair (number of bytes read, value of the 8-byte buffer).
A return of `-1` raises `OSError` from errno; a byte count different from
`sizeof(uint64_t) = 8` sets `errno = EIO` and raises `OSError`; otherwise
the buffer is returned through `PyLong_FromLong`. -/
def timerfd_read (k : Except ℤ (ℕ × ℕ)) : Except PyError ℤ :=
  match k with
  | Except.error e => Except.error (PyError.osError e)
  | Except.ok (nbytes, buffer) =>
    if nbytes ≠ 8 then Except.error (PyError.osError eioCode)
    else Except.ok (uint64ToLong buffer)

/-- Full `_timerfd_settime` operation against the kernel model: build the
itimerspec from the double arguments, run the kernel call, convert the old
value. -/
def timerfd_settime (st : TimerState) (value interval : ℚ) :
    Except PyError ((ℚ × ℚ) × TimerState) :=
  match kernelSettime st (settimeSpecOf value interval) with
  | Except.error e => Except.error (PyError.osError e)
  | Except.ok (old, st') =>
    Except.ok ((reconstruct old.it_value, reconstruct old.it_interval), st')

/-- Full `_timerfd_settime_ns` operation against the kernel model. -/
def timerfd_settime_ns (st : TimerState) (value interval : ℤ) :
    Except PyError ((ℚ × ℚ) × TimerState) :=
  match kernelSettime st (settimeNsSpecOf value interval) with
  | Except.error e => Except.error (PyError.osError e)
  | Except.ok (old, st') =>
    Except.ok ((reconstruct old.it_value, reconstruct old.it_interval), st')

/-- Full `_timerfd_gettime` operation against the kernel model. -/
def timerfd_gettime (st : TimerState) :
    Except PyError ((ℚ × ℚ) × TimerState) :=
  match kernelGettime st with
  | Except.error e => Except.error (PyError.osError e)
  | Except.ok (curr, st') =>
    Except.ok ((reconstruct curr.it_value, reconstruct curr.it_interval), st')

/-- The C truncating cast agrees with the floor on non-negative inputs. -/
theorem ctrunc_of_nonneg {q : ℚ} (h : 0 ≤ q) : ctrunc q = ⌊q⌋ := if_pos h

/-- The C truncating cast agrees with the ceiling on negative inputs. -/
theorem ctrunc_of_neg {q : ℚ} (h : q < 0) : ctrunc q = ⌈q⌉ := if_neg (not_le.mpr h)

/-- The 32-bit cast is exact truncation on the int range. -/
theorem cint_of_range {q : ℚ} (h1 : -(2 ^ 31) ≤ ctrunc q) (h2 : ctrunc q ≤ 2 ^ 31 - 1) :
    cint q = ctrunc q := by
  rw [cint, if_neg]
  push_neg
  exact ⟨h1, h2⟩

/-- The 64-bit cast is exact truncation on the long range. -/
theorem clong_of_range {q : ℚ} (h1 : -(2 ^ 63) ≤ ctrunc q) (h2 : ctrunc q ≤ 2 ^ 63 - 1) :
    clong q = ctrunc q := by
  rw [clong, if_neg]
  push_neg
  exact ⟨h1, h2⟩

/-- An input truncating to zero passes through the 32-bit cast as zero. -/
theorem cint_of_ctrunc_zero {q : ℚ} (h : ctrunc q = 0) : cint q = 0 := by
  rw [cint, h]
  norm_num

/-- An input truncating to zero passes through the 64-bit cast as zero. -/
theorem clong_of_ctrunc_zero {q : ℚ} (h : ctrunc q = 0) : clong q = 0 := by
  rw [clong, h]
  norm_num

/-- A negatively truncating input comes out of the 64-bit cast negative:
in range it is the truncation itself, out of range it is `-2^63`. -/
theorem clong_neg {q : ℚ} (h : ctrunc q < 0) : clong q < 0 := by
  rw [clong]
  by_cases hc : ctrunc q < -(2 ^ 63) ∨ 2 ^ 63 - 1 < ctrunc q
  · rw [if_pos hc]
    norm_num
  · rw [if_neg hc]
    exact h

/-- On a non-negative duration below 2^31 (so that both casts are exact
truncation), the split produced by `_timerfd_settime` is the floor of the
duration and the floor of 1e9 times its fractional part. -/
theorem splitOf_of_nonneg {d : ℚ} (h : 0 ≤ d) (h' : d < 2 ^ 31) :
    splitOf d = { tv_sec := ⌊d⌋, tv_nsec := ⌊1000000000 * Int.fract d⌋ } := by
  have hct : ctrunc d = ⌊d⌋ := ctrunc_of_nonneg h
  have hfl0 : (0 : ℤ) ≤ ⌊d⌋ := Int.floor_nonneg.mpr h
  have hflu : ⌊d⌋ < 2 ^ 31 := by
    rw [Int.floor_lt]
    push_cast
    exact h'
  have hcint : cint d = ⌊d⌋ := by
    rw [← hct]
    exact cint_of_range (by omega) (by omega)
  have hcsec : clong d = ⌊d⌋ := by
    rw [← hct]
    exact clong_of_range (by omega) (by omega)
  have hf0 : 0 ≤ Int.fract d := Int.fract_nonneg d
  have hf1 : Int.fract d < 1 := Int.fract_lt_one d
  have harg0 : (0 : ℚ) ≤ 1000000000 * (d - ((⌊d⌋ : ℤ) : ℚ)) := by
    have := hf0
    rw [Int.fract] at this
    nlinarith
  have hctn : ctrunc (1000000000 * (d - ((⌊d⌋ : ℤ) : ℚ))) = ⌊1000000000 * Int.fract d⌋ := by
    rw [ctrunc_of_nonneg harg0, Int.fract]
  have hn0 : (0 : ℤ) ≤ ⌊(1000000000 : ℚ) * Int.fract d⌋ :=
    Int.floor_nonneg.mpr (by nlinarith)
  have hnu : ⌊(1000000000 : ℚ) * Int.fract d⌋ < 1000000000 := by
    rw [Int.floor_lt]
    push_cast
    nlinarith
  have hnsec : clong (1000000000 * (d - ((cint d : ℤ) : ℚ))) = ⌊1000000000 * Int.fract d⌋ := by
    rw [hcint, ← hctn]
    exact clong_of_range (by omega) (by omega)
  rw [splitOf, hcsec, hnsec]

/-- The nanosecond field of the split of a non-negative duration below
2^31 lies in the kernel-valid range [0, 999999999]. -/
theorem splitOf_nsec_bounds {d : ℚ} (h : 0 ≤ d) (h' : d < 2 ^ 31) :
    0 ≤ (splitOf d).tv_nsec ∧ (splitOf d).tv_nsec ≤ 999999999 := by
  rw [splitOf_of_nonneg h h']
  have hf0 : 0 ≤ Int.fract d := Int.fract_nonneg d
  have hf1 : Int.fract d < 1 := Int.fract_lt_one d
  constructor
  · exact Int.floor_nonneg.mpr (by nlinarith)
  · have : ⌊(1000000000 : ℚ) * Int.fract d⌋ < 1000000000 := by
      rw [Int.floor_lt]
      push_cast
      nlinarith
    show ⌊(1000000000 : ℚ) * Int.fract d⌋ ≤ 999999999
    omega

/-- Reconstructing the split of a non-negative duration below 2^31
recovers the duration up to one nanosecond: the defect is exactly the
truncated-away sub-nanosecond remainder, which lies in [0, 1e-9). -/
theorem reconstruct_splitOf_close {d : ℚ} (h : 0 ≤ d) (h' : d < 2 ^ 31) :
    |reconstruct (splitOf d) - d| ≤ 1 / 1000000000 := by
  rw [splitOf_of_nonneg h h']
  unfold reconstruct
  rw [Int.fract]
  have hfl : (⌊(1000000000 : ℚ) * (d - (⌊d⌋ : ℚ))⌋ : ℚ) ≤ 1000000000 * (d - (⌊d⌋ : ℚ)) :=
    Int.floor_le _
  have hfu : (1000000000 : ℚ) * (d - (⌊d⌋ : ℚ)) <
      (⌊(1000000000 : ℚ) * (d - (⌊d⌋ : ℚ))⌋ : ℚ) + 1 :=
    Int.lt_floor_add_one _
  rw [abs_le]
  exact ⟨by linarith, by linarith⟩

/-- A duration at most minus one nanosecond always produces an invalid
timespec: either its seconds field or its nanoseconds field is negative
(in range the negative truncation passes through the 64-bit cast, out of
range it collapses to the negative `-2^63`). -/
theorem splitOf_invalid_of_le_neg_nano {d : ℚ} (h : d ≤ -(1 / 1000000000)) :
    ¬(splitOf d).valid := by
  have hdneg : d < 0 := lt_of_le_of_lt h (by norm_num)
  rcases le_or_lt d (-1) with hle | hgt
  · intro hv
    have hceil : ⌈d⌉ ≤ -1 := Int.ceil_le.mpr (by exact_mod_cast hle)
    have hct : ctrunc d < 0 := by
      rw [ctrunc_of_neg hdneg]
      omega
    have hsec : (splitOf d).tv_sec < 0 := clong_neg hct
    have h0 : (0 : ℤ) ≤ (splitOf d).tv_sec := hv.1
    omega
  · intro hv
    have hceil : ⌈d⌉ = 0 := by
      rw [Int.ceil_eq_zero_iff]
      constructor
      · exact_mod_cast hgt
      · exact le_of_lt hdneg
    have hct0 : ctrunc d = 0 := by
      rw [ctrunc_of_neg hdneg, hceil]
    have hcint : cint d = 0 := by
      rw [← hct0]
      exact cint_of_range (by omega) (by omega)
    have harg : (1000000000 : ℚ) * (d - ((cint d : ℤ) : ℚ)) ≤ -1 := by
      rw [hcint]
      push_cast
      linarith
    have hargneg : (1000000000 : ℚ) * (d - ((cint d : ℤ) : ℚ)) < 0 :=
      lt_of_le_of_lt harg (by norm_num)
    have hctn : ctrunc (1000000000 * (d - ((cint d : ℤ) : ℚ))) < 0 := by
      rw [ctrunc_of_neg hargneg]
      have : ⌈(1000000000 : ℚ) * (d - ((cint d : ℤ) : ℚ))⌉ ≤ -1 :=
        Int.ceil_le.mpr (by exact_mod_cast harg)
      omega
    have hnsec : (splitOf d).tv_nsec < 0 := clong_neg hctn
    have h0 : (0 : ℤ) ≤ (splitOf d).tv_nsec := hv.2.1
    omega

/-- The split of the duration 2^31: the truncated value 2^31 does not fit
the 32-bit `int`, so the inner cast delivers `-2^31`, the subtraction
yields 2^32 and the nanosecond field becomes 1e9 * 2^32, far outside the
kernel-valid range. -/
theorem splitOf_pow31 :
    splitOf (2 ^ 31 : ℚ) = { tv_sec := 2 ^ 31, tv_nsec := 4294967296000000000 } := by
  have hct : ctrunc (2 ^ 31 : ℚ) = 2 ^ 31 := by
    rw [ctrunc, if_pos (by norm_num : (0 : ℚ) ≤ 2 ^ 31)]
    norm_num
  have hcint : cint (2 ^ 31 : ℚ) = -(2 ^ 31) := by
    rw [cint, hct, if_pos (by norm_num)]
  have hcsec : clong (2 ^ 31 : ℚ) = 2 ^ 31 := by
    rw [← hct]
    exact clong_of_range (by rw [hct]; norm_num) (by rw [hct]; norm_num)
  have harg : (1000000000 : ℚ) * ((2 ^ 31 : ℚ) - ((cint (2 ^ 31 : ℚ) : ℤ) : ℚ)) =
      4294967296000000000 := by
    rw [hcint]
    push_cast
    norm_num
  have hct2 : ctrunc (4294967296000000000 : ℚ) = 4294967296000000000 := by
    rw [ctrunc, if_pos (by norm_num : (0 : ℚ) ≤ 4294967296000000000)]
    norm_num
  have hnsec : clong (1000000000 * ((2 ^ 31 : ℚ) - ((cint (2 ^ 31 : ℚ) : ℤ) : ℚ))) =
      4294967296000000000 := by
    rw [harg, ← hct2]
    exact clong_of_range (by rw [hct2]; norm_num) (by rw [hct2]; norm_num)
  rw [splitOf, hcsec, hnsec]

/-- C1 (counterexample): at the non-negative finite double 2^31 the
itimerspec built by `_timerfd_settime` is not the floored split: the
overflowed 32-bit `(int)d` cast puts 1e9 * 2^32 in the nanosecond field
instead of the floored fractional remainder 0, and the kernel rejects the
result instead of receiving the claimed split. -/
theorem settime_split_overflow :
    (0 : ℚ) ≤ 2 ^ 31 ∧
    (settimeSpecOf (2 ^ 31) 0).it_value.tv_nsec = 4294967296000000000 ∧
    (settimeSpecOf (2 ^ 31) 0).it_value.tv_nsec ≠ ⌊1000000000 * Int.fract (2 ^ 31 : ℚ)⌋ ∧
    ¬(settimeSpecOf (2 ^ 31) 0).it_value.valid := by
  have hs : (settimeSpecOf (2 ^ 31) 0).it_value =
      { tv_sec := 2 ^ 31, tv_nsec := 4294967296000000000 } := splitOf_pow31
  have hfract : Int.fract (2 ^ 31 : ℚ) = 0 := by
    rw [Int.fract]
    norm_num
  refine ⟨by norm_num, ?_, ?_, ?_⟩
  · rw [hs]
  · rw [hs, hfract]
    norm_num
  · rw [hs]
    intro hv
    have := hv.2.2
    norm_num at this

/-- C1 (amended): for every non-negative duration below 2^31 (so that the
32-bit `(int)` cast in the conversion is exact) handed to
`_timerfd_settime`, the itimerspec passed to the kernel carries the
floored whole-seconds part in `tv_sec` and the fractional remainder
scaled by 1e9 (and truncated to an integer) in `tv_nsec`. -/
theorem settime_split_floor_fract (value interval : ℚ)
    (hv : 0 ≤ value) (hv' : value < 2 ^ 31) (hi : 0 ≤ interval) (hi' : interval < 2 ^ 31) :
    (settimeSpecOf value interval).it_value.tv_sec = ⌊value⌋ ∧
    (settimeSpecOf value interval).it_value.tv_nsec = ⌊1000000000 * Int.fract value⌋ ∧
    (settimeSpecOf value interval).it_interval.tv_sec = ⌊interval⌋ ∧
    (settimeSpecOf value interval).it_interval.tv_nsec = ⌊1000000000 * Int.fract interval⌋ := by
  unfold settimeSpecOf
  rw [splitOf_of_nonneg hv hv', splitOf_of_nonneg hi hi']
  exact ⟨rfl, rfl, rfl, rfl⟩

/-- Witness for C1 at value = 3/2, interval = 1/4. -/
theorem settime_split_floor_fract_witness :
    (settimeSpecOf (3 / 2) (1 / 4)).it_value.tv_sec = ⌊(3 / 2 : ℚ)⌋ ∧
    (settimeSpecOf (3 / 2) (1 / 4)).it_value.tv_nsec = ⌊1000000000 * Int.fract (3 / 2 : ℚ)⌋ ∧
    (settimeSpecOf (3 / 2) (1 / 4)).it_interval.tv_sec = ⌊(1 / 4 : ℚ)⌋ ∧
    (settimeSpecOf (3 / 2) (1 / 4)).it_interval.tv_nsec = ⌊1000000000 * Int.fract (1 / 4 : ℚ)⌋ :=
  settime_split_floor_fract (3 / 2) (1 / 4) (by norm_num) (by norm_num) (by norm_num)
    (by norm_num)

/-- C2 (counterexample): at the non-negative finite double 2^31 the
split-and-reconstruct round trip of `_timerfd_settime` does not come back
within 1e-9: the overflowed 32-bit `(int)d` cast makes the reconstruction
2^31 + 2^32, off by 2^32 seconds. -/
theorem settime_roundtrip_overflow :
    (0 : ℚ) ≤ 2 ^ 31 ∧
    reconstruct (settimeSpecOf (2 ^ 31) 0).it_value - 2 ^ 31 = 4294967296 ∧
    ¬|reconstruct (settimeSpecOf (2 ^ 31) 0).it_value - 2 ^ 31| ≤ 1 / 1000000000 := by
  have hs : (settimeSpecOf (2 ^ 31) 0).it_value =
      { tv_sec := 2 ^ 31, tv_nsec := 4294967296000000000 } := splitOf_pow31
  have hr : reconstruct (settimeSpecOf (2 ^ 31) 0).it_value - 2 ^ 31 = 4294967296 := by
    rw [hs, reconstruct]
    push_cast
    norm_num
  refine ⟨by norm_num, hr, ?_⟩
  rw [hr]
  norm_num

/-- C2 (amended): converting a non-negative duration below 2^31 (the
domain where the 32-bit `(int)` cast is exact) to the split (seconds,
nanoseconds) form used by `_timerfd_settime` and reconstructing it via
seconds + nanoseconds / 1e9 yields a value within 1e-9 of the original,
for the initial duration and the interval alike. -/
theorem settime_roundtrip_within_nano (value interval : ℚ)
    (hv : 0 ≤ value) (hv' : value < 2 ^ 31) (hi : 0 ≤ interval) (hi' : interval < 2 ^ 31) :
    |reconstruct (settimeSpecOf value interval).it_value - value| ≤ 1 / 1000000000 ∧
    |reconstruct (settimeSpecOf value interval).it_interval - interval| ≤ 1 / 1000000000 :=
  ⟨reconstruct_splitOf_close hv hv', reconstruct_splitOf_close hi hi'⟩

/-- Witness for C2 at value = 7/3, interval = 1/7. -/
theorem settime_roundtrip_within_nano_witness :
    |reconstruct (settimeSpecOf (7 / 3) (1 / 7)).it_value - 7 / 3| ≤ 1 / 1000000000 ∧
    |reconstruct (settimeSpecOf (7 / 3) (1 / 7)).it_interval - 1 / 7| ≤ 1 / 1000000000 :=
  settime_roundtrip_within_nano (7 / 3) (1 / 7) (by norm_num) (by norm_num) (by norm_num)
    (by norm_num)

/-- C3: the itimerspec built by `_timerfd_settime_ns` always has both
seconds fields equal to zero, and its nanosecond fields are exactly the
two integer arguments. -/
theorem settime_ns_fields (value interval : ℤ) :
    (settimeNsSpecOf value interval).it_value.tv_sec = 0 ∧
    (settimeNsSpecOf value interval).it_interval.tv_sec = 0 ∧
    (settimeNsSpecOf value interval).it_value.tv_nsec = value ∧
    (settimeNsSpecOf value interval).it_interval.tv_nsec = interval :=
  ⟨rfl, rfl, rfl, rfl⟩

/-- C4 (failing input): a full 8-byte read whose counter value is 2^63 is
returned through `PyLong_FromLong`, which reinterprets the unsigned
64-bit counter as a signed long: the wrapper returns the negative value
-2^63 instead of the counter value 2^63. -/
theorem read_large_counter_negative :
    timerfd_read (Except.ok (8, 2 ^ 63)) = Except.ok (-(2 ^ 63)) ∧
    (-(2 ^ 63) : ℤ) < 0 ∧ (-(2 ^ 63) : ℤ) ≠ 2 ^ 63 := by
  refine ⟨?_, by norm_num, by norm_num⟩
  show timerfd_read (Except.ok (8, 2 ^ 63)) = Except.ok (-(2 ^ 63))
  norm_num [timerfd_read, uint64ToLong]

/-- C5: a successful kernel read that returns a byte count different from
8 makes the wrapper raise `OSError` with the distinct error code EIO
(regardless of the prior errno), and no counter value is returned. -/
theorem read_short_count_raises (nbytes buffer : ℕ) (h : nbytes ≠ 8) :
    timerfd_read (Except.ok (nbytes, buffer)) = Except.error (PyError.osError eioCode) := by
  simp [timerfd_read, h]

/-- Witness for C5 at a 4-byte short read. -/
theorem read_short_count_raises_witness :
    timerfd_read (Except.ok (4, 123)) = Except.error (PyError.osError eioCode) :=
  read_short_count_raises 4 123 (by decide)

/-- C6: every exported operation maps a failing kernel call (return value
-1) to `OSError` carrying the failing call's errno unchanged, producing
no output value. -/
theorem syscall_failure_propagates_errno (e : ℤ) :
    timerfd_create (Except.error e) = Except.error (PyError.osError e) ∧
    timerfd_settime_result (Except.error e) = Except.error (PyError.osError e) ∧
    timerfd_settime_ns_result (Except.error e) = Except.error (PyError.osError e) ∧
    timerfd_gettime_result (Except.error e) = Except.error (PyError.osError e) ∧
    timerfd_read (Except.error e) = Except.error (PyError.osError e) :=
  ⟨rfl, rfl, rfl, rfl, rfl⟩

/-- C7: a successful `_timerfd_gettime` call returns the pair
(remaining initial, interval), each component reconstructed from the
kernel's split representation as seconds + nanoseconds / 1e9, and leaves
the timer state unchanged. -/
theorem gettime_reconstruction (st : TimerState) :
    timerfd_gettime st =
      Except.ok
        (((st.spec.it_value.tv_sec : ℚ) + (st.spec.it_value.tv_nsec : ℚ) / 1000000000,
          (st.spec.it_interval.tv_sec : ℚ) + (st.spec.it_interval.tv_nsec : ℚ) / 1000000000),
         st) :=
  rfl

set_option maxHeartbeats 2000000 in
/-- C8 (counterexample): the duration -1/10^10 is negative, yet
`_timerfd_settime` called with it as the initial duration succeeds: both
truncating casts in the conversion map it to zero, so the kernel receives
the valid all-zero itimerspec, accepts the call, and the wrapper returns
the previous-specification tuple. -/
theorem settime_tiny_negative_accepted :
    (-(1 / 10000000000) : ℚ) < 0 ∧
    timerfd_settime ⟨⟨⟨1, 0⟩, ⟨0, 0⟩⟩, 0⟩ (-(1 / 10000000000)) 0 =
      Except.ok ((1, 0), ⟨⟨⟨0, 0⟩, ⟨0, 0⟩⟩, 0⟩) := by
  constructor
  · norm_num
  · have hc1 : ctrunc (-(1 / 10000000000) : ℚ) = 0 := by
      rw [ctrunc, if_neg (by norm_num : ¬(0 : ℚ) ≤ -(1 / 10000000000))]
      norm_num
    have harg1 : (1000000000 : ℚ) *
        ((-(1 / 10000000000) : ℚ) - ((cint (-(1 / 10000000000) : ℚ) : ℤ) : ℚ)) = -(1 / 10) := by
      rw [cint_of_ctrunc_zero hc1]
      push_cast
      norm_num
    have hct10 : ctrunc (-(1 / 10) : ℚ) = 0 := by
      rw [ctrunc, if_neg (by norm_num : ¬(0 : ℚ) ≤ -(1 / 10))]
      norm_num
    have hs1 : splitOf (-(1 / 10000000000) : ℚ) = { tv_sec := 0, tv_nsec := 0 } := by
      rw [splitOf, harg1, clong_of_ctrunc_zero hc1, clong_of_ctrunc_zero hct10]
    have hct0 : ctrunc (0 : ℚ) = 0 := by
      rw [ctrunc, if_pos le_rfl]
      norm_num
    have harg0 : (1000000000 : ℚ) * ((0 : ℚ) - ((cint (0 : ℚ) : ℤ) : ℚ)) = 0 := by
      rw [cint_of_ctrunc_zero hct0]
      norm_num
    have hs0 : splitOf (0 : ℚ) = { tv_sec := 0, tv_nsec := 0 } := by
      rw [splitOf, harg0, clong_of_ctrunc_zero hct0]
    have hspec : settimeSpecOf (-(1 / 10000000000) : ℚ) 0 =
        { it_value := { tv_sec := 0, tv_nsec := 0 },
          it_interval := { tv_sec := 0, tv_nsec := 0 } } := by
      rw [settimeSpecOf, hs1, hs0]
    have hkernel : kernelSettime ⟨⟨⟨1, 0⟩, ⟨0, 0⟩⟩, 0⟩ (settimeSpecOf (-(1 / 10000000000) : ℚ) 0) =
        Except.ok (⟨⟨1, 0⟩, ⟨0, 0⟩⟩, ⟨⟨⟨0, 0⟩, ⟨0, 0⟩⟩, 0⟩) := by
      rw [hspec, kernelSettime, if_pos (by decide)]
    conv_lhs => rw [timerfd_settime, hkernel]
    norm_num [reconstruct]

/-- C8 (amended): `_timerfd_settime` fails with `OSError` carrying EINVAL,
returning no previous-specification tuple, whenever either duration is at
most minus one nanosecond; negative durations strictly between -1e-9 and 0
are truncated to an all-zero field pair and accepted. -/
theorem settime_negative_nano_rejected (st : TimerState) (value interval : ℚ)
    (h : value ≤ -(1 / 1000000000) ∨ interval ≤ -(1 / 1000000000)) :
    timerfd_settime st value interval = Except.error (PyError.osError einvalCode) := by
  have hnc : ¬((settimeSpecOf value interval).it_value.valid ∧
      (settimeSpecOf value interval).it_interval.valid) := by
    rcases h with h | h
    · exact fun hv => splitOf_invalid_of_le_neg_nano h hv.1
    · exact fun hv => splitOf_invalid_of_le_neg_nano h hv.2
  unfold timerfd_settime kernelSettime
  rw [if_neg hnc]

/-- Witness for the amended C8 at value = -1, interval = 0. -/
theorem settime_negative_nano_rejected_witness :
    timerfd_settime ⟨⟨⟨0, 0⟩, ⟨0, 0⟩⟩, 0⟩ (-1) 0 =
      Except.error (PyError.osError einvalCode) :=
  settime_negative_nano_rejected ⟨⟨⟨0, 0⟩, ⟨0, 0⟩⟩, 0⟩ (-1) 0 (Or.inl (by norm_num))

/-- C9: `_timerfd_gettime` is a read-only query: a successful call leaves
the timer state (armed specification and expiration counter) unchanged,
and an immediately repeated call on the resulting state observes the same
value pair. -/
theorem gettime_readonly (st st' : TimerState) (v : ℚ × ℚ)
    (h : timerfd_gettime st = Except.ok (v, st')) :
    st' = st ∧ timerfd_gettime st' = Except.ok (v, st') := by
  have hst : timerfd_gettime st =
      Except.ok ((reconstruct st.spec.it_value, reconstruct st.spec.it_interval), st) := rfl
  rw [hst] at h
  injection h with hp
  have hv : (reconstruct st.spec.it_value, reconstruct st.spec.it_interval) = v :=
    congrArg Prod.fst hp
  have hstate : st = st' := congrArg Prod.snd hp
  refine ⟨hstate.symm, ?_⟩
  rw [← hstate, ← hv]
  exact hst

/-- Witness for C9 on a timer armed at (2.5 s, 1 s). -/
theorem gettime_readonly_witness :
    (⟨⟨⟨2, 500000000⟩, ⟨1, 0⟩⟩, 3⟩ : TimerState) = ⟨⟨⟨2, 500000000⟩, ⟨1, 0⟩⟩, 3⟩ ∧
    timerfd_gettime ⟨⟨⟨2, 500000000⟩, ⟨1, 0⟩⟩, 3⟩ =
      Except.ok ((5 / 2, 1), ⟨⟨⟨2, 500000000⟩, ⟨1, 0⟩⟩, 3⟩) :=
  gettime_readonly ⟨⟨⟨2, 500000000⟩, ⟨1, 0⟩⟩, 3⟩ ⟨⟨⟨2, 500000000⟩, ⟨1, 0⟩⟩, 3⟩
    (5 / 2, 1) (by norm_num [timerfd_gettime, kernelGettime, reconstruct])

/-- C10: for non-negative durations that fit in the platform int range,
the nanosecond fields computed by `_timerfd_settime`'s conversion lie in
the kernel-valid range [0, 999999999], so the kernel's
out-of-range-nanoseconds rejection is unreachable for such inputs. -/
theorem settime_nsec_in_range (value interval : ℚ)
    (hv : 0 ≤ value) (hv' : value < 2 ^ 31) (hi : 0 ≤ interval) (hi' : interval < 2 ^ 31) :
    0 ≤ (settimeSpecOf value interval).it_value.tv_nsec ∧
    (settimeSpecOf value interval).it_value.tv_nsec ≤ 999999999 ∧
    0 ≤ (settimeSpecOf value interval).it_interval.tv_nsec ∧
    (settimeSpecOf value interval).it_interval.tv_nsec ≤ 999999999 := by
  have h1 := splitOf_nsec_bounds hv hv'
  have h2 := splitOf_nsec_bounds hi hi'
  exact ⟨h1.1, h1.2, h2.1, h2.2⟩

/-- Witness for C10 at value = 3/2, interval = 999999999/1000000000. -/
theorem settime_nsec_in_range_witness :
    0 ≤ (settimeSpecOf (3 / 2) (999999999 / 1000000000)).it_value.tv_nsec ∧
    (settimeSpecOf (3 / 2) (999999999 / 1000000000)).it_value.tv_nsec ≤ 999999999 ∧
    0 ≤ (settimeSpecOf (3 / 2) (999999999 / 1000000000)).it_interval.tv_nsec ∧
    (settimeSpecOf (3 / 2) (999999999 / 1000000000)).it_interval.tv_nsec ≤ 999999999 :=
  settime_nsec_in_range (3 / 2) (999999999 / 1000000000)
    (by norm_num) (by norm_num) (by norm_num) (by norm_num)

end Timerfd
